import Mathlib

/-!
Verification of the homework-status Telegram bot (`homework.py`) against its
natural-language specification.

The development shallowly embeds the Python program:
* JSON / Python values become the inductive `PyVal`;
* exceptions become the inductive `Exn` together with `Except`-valued
  functions (`check_response`, `parse_status`, `get_api_answer`);
* outbound HTTP and Telegram I/O become explicit per-cycle oracle inputs
  (`HttpResult`, the `tgErr1`/`tgErr2` fields of `CycleInput`);
* the body of `main`'s `while True:` loop becomes the state-transition
  function `cycle`, and `runCycles` iterates it over a list of oracle
  inputs, stopping when an exception escapes the loop body.
-/

namespace HomeworkBot

/-- A Python value as it can appear in a decoded JSON response: strings,
integers, lists, string-keyed dicts (as association lists), and `None`. -/
inductive PyVal where
  | str : String → PyVal
  | int : Int → PyVal
  | list : List PyVal → PyVal
  | dict : List (String × PyVal) → PyVal
  | none : PyVal
deriving Repr

/-- Modelled from the spec: `exceptions.py` (imported by `homework.py` but not
part of the sources at hand) defines the typed errors `EmptyResponseFromAPI`,
`TelegramError` and `WrongResponseCode`.  Per the spec these are ordinary
typed errors raised and caught by the program; following the universal
Python convention for user-defined exceptions they are modelled as
`Exception` subclasses, so together with the built-in `TypeError`,
`KeyError`, `ValueError` and `AttributeError` every constructor of `Exn`
is caught by an `except Exception` handler.  `wrongResponseCode` carries
the message and the string rendering of the underlying cause, mirroring
`WrongResponseCode(message, error)`. -/
inductive Exn where
  | typeError : String → Exn
  | keyError : String → Exn
  | valueError : String → Exn
  | attributeError : String → Exn
  | emptyResponseFromAPI : String → Exn
  | wrongResponseCode : String → String → Exn
  | telegramError : String → Exn
deriving Repr

/-- Python type name of a value, as used in built-in error messages. -/
def pyTypeName : PyVal → String
  | .str _ => "str"
  | .int _ => "int"
  | .list _ => "list"
  | .dict _ => "dict"
  | .none => "NoneType"

/-- Python truthiness (`bool(v)`) for the modelled values. -/
def pyTruthy : PyVal → Bool
  | .str s => s ≠ ""
  | .int i => i ≠ 0
  | .list xs => ¬ xs.isEmpty
  | .dict kvs => ¬ kvs.isEmpty
  | .none => false

mutual

/-- Python `repr` of a value (quote-escaping inside strings elided). -/
def pyRepr : PyVal → String
  | .str s => "'" ++ s ++ "'"
  | .int i => toString i
  | .list xs => "[" ++ pyReprList xs ++ "]"
  | .dict kvs => "\x7b" ++ pyReprDict kvs ++ "\x7d"
  | .none => "None"

/-- Comma-separated `repr`s of list elements. -/
def pyReprList : List PyVal → String
  | [] => ""
  | [x] => pyRepr x
  | x :: xs => pyRepr x ++ ", " ++ pyReprList xs

/-- Comma-separated `'key': repr(value)` pairs of a dict. -/
def pyReprDict : List (String × PyVal) → String
  | [] => ""
  | [(k, v)] => "'" ++ k ++ "': " ++ pyRepr v
  | (k, v) :: kvs => "'" ++ k ++ "': " ++ pyRepr v ++ ", " ++ pyReprDict kvs

end

/-- Python `str(v)`: identity on strings, `repr` on containers. -/
def pyStr : PyVal → String
  | .str s => s
  | v => pyRepr v

/-- `d.get(k)` on a dict: the stored value, or `None` when absent. -/
def dictGet (kvs : List (String × PyVal)) (k : String) : PyVal :=
  match kvs.lookup k with
  | some v => v
  | Option.none => .none

/-- `d.get(k, default)` on a dict. -/
def dictGetD (kvs : List (String × PyVal)) (k : String) (d : PyVal) : PyVal :=
  match kvs.lookup k with
  | some v => v
  | Option.none => d

/-- `needle` is a leading segment of `hay` (on character lists). -/
def charsLead : List Char → List Char → Bool
  | [], _ => true
  | _ :: _, [] => false
  | a :: as, b :: bs => a == b && charsLead as bs

/-- Python substring test `needle in hay` on character lists. -/
def charsHaveSub (needle : List Char) : List Char → Bool
  | [] => needle.isEmpty
  | c :: rest => charsLead needle (c :: rest) || charsHaveSub needle rest

/-- Python `k in container` for a string `k`: key membership on dicts,
`==`-membership on lists, substring test on strings, `TypeError` on
non-iterables. -/
def pyContains (container : PyVal) (k : String) : Except Exn Bool :=
  match container with
  | .dict kvs => .ok (kvs.lookup k).isSome
  | .list xs => .ok (xs.any fun v => match v with | .str s => s == k | _ => false)
  | .str s => .ok (charsHaveSub k.data s.data)
  | .int _ => .error (.typeError "argument of type 'int' is not iterable")
  | .none => .error (.typeError "argument of type 'NoneType' is not iterable")

/-- `RETRY_PERIOD = 600`. -/
def RETRY_PERIOD : Nat := 600

/-- `ENDPOINT` constant of `homework.py`. -/
def ENDPOINT : String := "https://practicum.yandex.ru/api/user_api/homework_statuses/"

/-- `HOMEWORK_VERDICTS`: the static status-to-verdict table. -/
def HOMEWORK_VERDICTS : List (String × String) :=
  [("approved", "Работа проверена: ревьюеру всё понравилось. Ура!"),
   ("reviewing", "Работа взята на проверку ревьюером."),
   ("rejected", "Работа проверена: у ревьюера есть замечания.")]

/-- `status in HOMEWORK_VERDICTS` (line 106) plus the subsequent table
lookup (line 111).  Dict membership hashes the key: hashable values
(strings, integers, `None`) are tested against the string keys — only a
string can match, so `.ok (some verdict)` exactly for the three known
string codes and `.ok none` for every other hashable value — while an
unhashable value (a list or dict) makes the membership test itself raise
`TypeError: unhashable type`. -/
def verdictsLookup : PyVal → Except Exn (Option String)
  | .str s => .ok (HOMEWORK_VERDICTS.lookup s)
  | .int _ => .ok Option.none
  | .none => .ok Option.none
  | .list _ => .error (.typeError "unhashable type: 'list'")
  | .dict _ => .error (.typeError "unhashable type: 'dict'")

/-- `check_response(response)` of `homework.py`: type-check the response,
require the `homeworks` and `current_date` keys, and return the
`homeworks` list. -/
def check_response (response : PyVal) : Except Exn (List PyVal) :=
  match response with
  | .dict kvs =>
    if (kvs.lookup "homeworks").isNone || (kvs.lookup "current_date").isNone then
      .error (.emptyResponseFromAPI "Нет ключа homeworks в ответе")
    else
      match dictGet kvs "homeworks" with
      | .list homeworks => .ok homeworks
      | _ => .error (.typeError "homeworks не является list")
  | _ => .error (.typeError "Ответ не является dict")

/-- `parse_status(homework)` of `homework.py`: require `homework_name`,
require a known `status`, and build the notification string. -/
def parse_status (homework : PyVal) : Except Exn String :=
  match pyContains homework "homework_name" with
  | .error e => .error e
  | .ok false => .error (.keyError "Нет ключа homework_name в ответе")
  | .ok true =>
    match homework with
    | .dict kvs =>
      let homework_name := dictGet kvs "homework_name"
      let homework_status := dictGet kvs "status"
      match verdictsLookup homework_status with
      | .error e => .error e
      | .ok (some verdict) =>
          .ok ("Изменился статус проверки работы \"" ++ pyStr homework_name
            ++ "\". " ++ verdict)
      | .ok Option.none =>
          .error (.valueError ("Неизвестный статус - " ++ pyStr homework_status))
    | other => .error (.attributeError (pyTypeName other))

/-- Outcome of the single `requests.get` performed by `get_api_answer`:
either the call itself raised (`netError`, carrying the string rendering
of the exception), or a response arrived with a status code, reason and
text, and a body that decodes to JSON or fails to (`body` an `Except`
whose `error` is the string rendering of the JSON-decode exception). -/
inductive HttpResult where
  | netError : String → HttpResult
  | response : Nat → String → String → Except String PyVal → HttpResult
deriving Repr

/-- Python `str(e)` for the modelled exceptions (`str` of a one-argument
exception is its argument, `KeyError` shows the `repr` of its argument,
a two-argument exception shows its argument tuple). -/
def exnStr : Exn → String
  | .typeError s => s
  | .keyError s => "'" ++ s ++ "'"
  | .valueError s => s
  | .attributeError ty => "'" ++ ty ++ "' object has no attribute 'get'"
  | .emptyResponseFromAPI s => s
  | .wrongResponseCode msg cause => "('" ++ msg ++ "', " ++ cause ++ ")"
  | .telegramError s => s

/-- The message of the inner `WrongResponseCode` raised on a non-200 status. -/
def non200Msg (status : Nat) (reason text : String) : String :=
  "API не возвращает код 200. Код: " ++ toString status ++ ". Причина: "
    ++ reason ++ ". Текст: " ++ text ++ "."

/-- The message of the `WrongResponseCode` re-raised by `get_api_answer`'s
outer handler, built from the request parameters. -/
def requestFailMsg (token : String) (timestamp : PyVal) : String :=
  "API не возвращает код 200. Запрос: " ++ ENDPOINT
    ++ ", \x7b'Authorization': 'OAuth " ++ token ++ "'\x7d, \x7b'from_date': "
    ++ pyRepr timestamp ++ "\x7d."

/-- `get_api_answer(current_timestamp)` of `homework.py`.  `token` is the
`PRACTICUM_TOKEN` environment value (it only appears inside error
messages), `now` the value of `int(time.time())` used when the incoming
timestamp is falsy, and `http` the outcome of the one `requests.get`.
Any failure — the request raising, a non-200 status (whose inner
`WrongResponseCode` is itself caught by the enclosing handler), or a
JSON-decode failure — is re-raised as `WrongResponseCode(message, error)`;
an HTTP 200 with a decoded body returns that body as-is. -/
def get_api_answer (token : String) (current_timestamp : PyVal) (now : Int)
    (http : HttpResult) : Except Exn PyVal :=
  let timestamp := if pyTruthy current_timestamp then current_timestamp else PyVal.int now
  match http with
  | .netError cause =>
      .error (.wrongResponseCode (requestFailMsg token timestamp) cause)
  | .response status reason text body =>
    if status ≠ 200 then
      .error (.wrongResponseCode (requestFailMsg token timestamp)
        ("WrongResponseCode('" ++ non200Msg status reason text ++ "')"))
    else
      match body with
      | .ok v => .ok v
      | .error cause =>
          .error (.wrongResponseCode (requestFailMsg token timestamp) cause)

/-- `send_message(bot, message)` of `homework.py`.  `tgErr` is the outcome
of the underlying `bot.send_message` call: `none` when the Telegram API
accepts the message, `some e` when it raises a `telegram.error.TelegramError`
whose string rendering is `e`; the latter is re-raised as the typed
`TelegramError`. -/
def send_message (tgErr : Option String) (message : String) : Except Exn Unit :=
  match tgErr with
  | Option.none => .ok ()
  | some e => .error (.telegramError ("Ошибка отправки сообщения в Telegram: " ++ e))

/-- Externally observable actions of one cycle of the poll loop: the
outbound fetch (with the `from_date` timestamp used), a successful
outbound Telegram message, the local-log-only branch taken for a
duplicate message, and the `finally` sleep. -/
inductive Event where
  | fetch : PyVal → Event
  | sent : String → Event
  | logOnly : String → Event
  | sleep : Nat → Event
deriving Repr

/-- The oracle inputs consumed by one iteration of the `while True:` loop:
the two `int(time.time())` readings (line 54 inside `get_api_answer` and
the default of line 139), the HTTP outcome, and the outcomes of the first
and (if reached) second `bot.send_message` call of the iteration. -/
structure CycleInput where
  now1 : Int
  now2 : Int
  http : HttpResult
  tgErr1 : Option String
  tgErr2 : Option String
deriving Repr

/-- Result of one iteration of the loop: the new `last_message` and cursor
(`current_timestamp`), the observable events of the iteration, and the
exception escaping the iteration body, if any (it propagates only after
the `finally` sleep has run, and terminates the loop). -/
structure CycleResult where
  lastMessage : String
  cursor : PyVal
  events : List Event
  raised : Option Exn
deriving Repr

/-- Lines 138–144 of `main`: fetch, advance the cursor from `current_date`
(line 139 runs before `check_response`, so the cursor advances even when
validation then fails), validate, and format the message of the cycle.
Returns the new cursor together with either the success message or the
exception that line 151's `except Exception` will catch. -/
def computeMessage (token : String) (cursor : PyVal) (inp : CycleInput) :
    PyVal × Except Exn String :=
  match get_api_answer token cursor inp.now1 inp.http with
  | .error e => (cursor, .error e)
  | .ok response =>
    match response with
    | .dict kvs =>
      let cursor2 := dictGetD kvs "current_date" (PyVal.int inp.now2)
      match check_response (.dict kvs) with
      | .error e => (cursor2, .error e)
      | .ok homeworks =>
        match homeworks with
        | hw :: _ => (cursor2, parse_status hw)
        | [] => (cursor2, .ok "Статус не изменился")
    | other => (cursor, .error (.attributeError (pyTypeName other)))

/-- The error-report message of line 152. -/
def errorReport (e : Exn) : String := "Сбой в работе программы: " ++ exnStr e

/-- Lines 151–156 of `main`: build the error report, send it if it differs
from `last_message` (updating `last_message` only when the send returns),
and let a `TelegramError` raised by this send escape the iteration body. -/
def exceptBranch (last : String) (cursor2 : PyVal) (pre : List Event) (e : Exn)
    (tgErr2 : Option String) : CycleResult :=
  let message := errorReport e
  if message ≠ last then
    match send_message tgErr2 message with
    | .ok _ =>
        ⟨message, cursor2, pre ++ [.sent message, .sleep RETRY_PERIOD], Option.none⟩
    | .error e2 => ⟨last, cursor2, pre ++ [.sleep RETRY_PERIOD], some e2⟩
  else ⟨last, cursor2, pre ++ [.sleep RETRY_PERIOD], Option.none⟩

/-- One iteration of `main`'s `while True:` loop (lines 136–159).  The
normal path sends the computed message only when it differs from
`last_message`; any exception of the try block — including a
`TelegramError` raised by the normal-path `send_message`, which sits
inside the `try` — is caught by `except Exception` and turned into an
error-report attempt; the `finally` sleep always runs. -/
def cycle (token : String) (last : String) (cursor : PyVal) (inp : CycleInput) :
    CycleResult :=
  let ts := if pyTruthy cursor then cursor else PyVal.int inp.now1
  let pre := [Event.fetch ts]
  match computeMessage token cursor inp with
  | (cursor2, .ok message) =>
    if message ≠ last then
      match send_message inp.tgErr1 message with
      | .ok _ =>
          ⟨message, cursor2, pre ++ [.sent message, .sleep RETRY_PERIOD], Option.none⟩
      | .error e => exceptBranch last cursor2 pre e inp.tgErr2
    else
      ⟨last, cursor2, pre ++ [.logOnly message, .sleep RETRY_PERIOD], Option.none⟩
  | (cursor2, .error e) => exceptBranch last cursor2 pre e inp.tgErr2

/-- Iterate `cycle` over a list of per-iteration oracle inputs, collecting
the observable events.  An iteration whose body raises ends the loop (the
exception propagates out of `while True:`). -/
def runCycles (token : String) : String → PyVal → List CycleInput → List Event
  | _, _, [] => []
  | last, cursor, inp :: rest =>
    let r := cycle token last cursor inp
    match r.raised with
    | some _ => r.events
    | Option.none => r.events ++ runCycles token r.lastMessage r.cursor rest

/-- The successful outbound Telegram messages among a list of events. -/
def sentsOf (events : List Event) : List String :=
  events.filterMap fun ev => match ev with | .sent m => some m | _ => Option.none

/-- The `from_date` timestamps of the outbound fetches among a list of events. -/
def fetchesOf (events : List Event) : List PyVal :=
  events.filterMap fun ev => match ev with | .fetch t => some t | _ => Option.none

/-- The timestamp the iteration's fetch uses, given the incoming cursor. -/
def fetchTs (cursor : PyVal) (inp : CycleInput) : PyVal :=
  if pyTruthy cursor then cursor else PyVal.int inp.now1

theorem sentsOf_append (a b : List Event) : sentsOf (a ++ b) = sentsOf a ++ sentsOf b :=
  List.filterMap_append a b _

theorem mem_of_mem_sentsOf {m : String} {evs : List Event} (h : m ∈ sentsOf evs) :
    Event.sent m ∈ evs := by
  rcases List.mem_filterMap.1 h with ⟨ev, hev, hm⟩
  cases ev <;> simp_all

/-- Exhaustive description of one loop iteration: in every case the events
are the fetch, then the send/log activity, then the `finally` sleep, and
the new `last_message`, the escaping exception and the new cursor are as
dictated by lines 145–159 of `main`. -/
theorem cycle_cases (token last : String) (cursor : PyVal) (inp : CycleInput) :
    (cycle token last cursor inp).cursor = (computeMessage token cursor inp).1
    ∧ ((∃ m, m ≠ last
          ∧ (cycle token last cursor inp).events =
              [.fetch (fetchTs cursor inp), .sent m, .sleep RETRY_PERIOD]
          ∧ (cycle token last cursor inp).lastMessage = m
          ∧ (cycle token last cursor inp).raised = Option.none)
      ∨ ((cycle token last cursor inp).lastMessage = last
          ∧ sentsOf (cycle token last cursor inp).events = []
          ∧ ((cycle token last cursor inp).events =
                [.fetch (fetchTs cursor inp), .sleep RETRY_PERIOD]
             ∨ ∃ m, (cycle token last cursor inp).events =
                [.fetch (fetchTs cursor inp), .logOnly m, .sleep RETRY_PERIOD]))) := by
  unfold cycle exceptBranch send_message errorReport
  rcases computeMessage token cursor inp with ⟨c2, e | msg⟩ <;> dsimp
  · rcases inp.tgErr2 with _ | e2 <;> dsimp <;> split
    · exact ⟨rfl, Or.inl ⟨_, by assumption, rfl, rfl, rfl⟩⟩
    · exact ⟨rfl, Or.inr ⟨rfl, rfl, Or.inl rfl⟩⟩
    · exact ⟨rfl, Or.inr ⟨rfl, rfl, Or.inl rfl⟩⟩
    · exact ⟨rfl, Or.inr ⟨rfl, rfl, Or.inl rfl⟩⟩
  · split
    · rcases inp.tgErr1 with _ | e1 <;> dsimp
      · exact ⟨rfl, Or.inl ⟨msg, by assumption, rfl, rfl, rfl⟩⟩
      · rcases inp.tgErr2 with _ | e2 <;> dsimp <;> split
        · exact ⟨rfl, Or.inl ⟨_, by assumption, rfl, rfl, rfl⟩⟩
        · exact ⟨rfl, Or.inr ⟨rfl, rfl, Or.inl rfl⟩⟩
        · exact ⟨rfl, Or.inr ⟨rfl, rfl, Or.inl rfl⟩⟩
        · exact ⟨rfl, Or.inr ⟨rfl, rfl, Or.inl rfl⟩⟩
    · exact ⟨rfl, Or.inr ⟨rfl, rfl, Or.inr ⟨msg, rfl⟩⟩⟩

/-- An exception escapes an iteration only from the error-report send:
it is the `TelegramError` of the second `bot.send_message` outcome, and
`last_message` is then unchanged. -/
theorem cycle_raised_aux (token last : String) (cursor : PyVal) (inp : CycleInput)
    (e : Exn) (h : (cycle token last cursor inp).raised = some e) :
    ∃ e2, inp.tgErr2 = some e2
      ∧ e = .telegramError ("Ошибка отправки сообщения в Telegram: " ++ e2)
      ∧ (cycle token last cursor inp).lastMessage = last := by
  revert h
  unfold cycle exceptBranch send_message
  rcases computeMessage token cursor inp with ⟨c2, e' | msg⟩ <;> dsimp
  · rcases inp.tgErr2 with _ | e2 <;> dsimp <;> split <;> intro h
    · exact absurd h (by simp)
    · exact absurd h (by simp)
    · exact ⟨e2, rfl, by injection h with h1; exact h1.symm, rfl⟩
    · exact absurd h (by simp)
  · split
    · rcases inp.tgErr1 with _ | e1 <;> dsimp
      · intro h; exact absurd h (by simp)
      · rcases inp.tgErr2 with _ | e2 <;> dsimp <;> split <;> intro h
        · exact absurd h (by simp)
        · exact absurd h (by simp)
        · exact ⟨e2, rfl, by injection h with h1; exact h1.symm, rfl⟩
        · exact absurd h (by simp)
    · intro h; exact absurd h (by simp)

/-- A successful `parse_status` always returns the fixed template. -/
theorem parse_status_ok_shape (hw : PyVal) (msg : String)
    (h : parse_status hw = .ok msg) :
    ∃ y, msg = "Изменился статус проверки работы \"" ++ y := by
  unfold parse_status at h
  rcases hpc : pyContains hw "homework_name" with e | b <;> rw [hpc] at h <;> dsimp at h
  · exact absurd h (by simp)
  · rcases b with _ | _
    · exact absurd h (by simp)
    · rcases hw with s | i | xs | kvs | _ <;> dsimp at h
      case str => exact absurd h (by simp)
      case int => exact absurd h (by simp)
      case list => exact absurd h (by simp)
      case none => exact absurd h (by simp)
      rcases hv : verdictsLookup (dictGet kvs "status") with e | _ | verdict <;>
        rw [hv] at h <;> dsimp at h
      · exact absurd h (by simp)
      · exact absurd h (by simp)
      · refine ⟨pyStr (dictGet kvs "homework_name") ++ ("\". " ++ verdict), ?_⟩
        injection h with h1
        rw [← h1, String.append_assoc, String.append_assoc]

/-- A successfully computed cycle message is either the fixed
"status unchanged" text or a `parse_status` template instance. -/
theorem computeMessage_ok_shape (token : String) (cursor : PyVal) (inp : CycleInput)
    (c2 : PyVal) (msg : String) (h : computeMessage token cursor inp = (c2, .ok msg)) :
    msg = "Статус не изменился"
      ∨ ∃ y, msg = "Изменился статус проверки работы \"" ++ y := by
  unfold computeMessage at h
  rcases hga : get_api_answer token cursor inp.now1 inp.http with e | resp <;>
    rw [hga] at h <;> dsimp at h
  · exact absurd h (by simp)
  · rcases resp with s | i | xs | kvs | _ <;> dsimp at h
    case str => exact absurd h (by simp)
    case int => exact absurd h (by simp)
    case list => exact absurd h (by simp)
    case none => exact absurd h (by simp)
    rcases hcr : check_response (.dict kvs) with e | hws <;> rw [hcr] at h <;> dsimp at h
    · exact absurd h (by simp)
    · rcases hws with _ | ⟨hw, rest⟩ <;> dsimp at h
      · have h2 := congrArg Prod.snd h
        dsimp at h2
        exact Or.inl (by injection h2 with h3; exact h3.symm)
      · refine Or.inr (parse_status_ok_shape hw msg ?_)
        have h2 := congrArg Prod.snd h
        dsimp at h2
        exact h2

/-- An error report is never the "status unchanged" message
(the lengths differ). -/
theorem errorReport_ne_unchanged (x : String) :
    "Сбой в работе программы: " ++ x ≠ "Статус не изменился" := by
  intro h
  have hl := congrArg String.length h
  rw [String.length_append] at hl
  have h1 : ("Сбой в работе программы: ").length = 25 := rfl
  have h2 : ("Статус не изменился").length = 19 := rfl
  rw [h1, h2] at hl
  omega

/-- An error report is never a `parse_status` template instance
(the first characters differ). -/
theorem errorReport_ne_parsed (x y : String) :
    "Сбой в работе программы: " ++ x
      ≠ "Изменился статус проверки работы \"" ++ y := by
  intro h
  have hc : ("Сбой в работе программы: " ++ x).data.head?
      = ("Изменился статус проверки работы \"" ++ y).data.head? := by rw [h]
  have h1 : ("Сбой в работе программы: " ++ x).data.head? = some 'С' := rfl
  have h2 : ("Изменился статус проверки работы \"" ++ y).data.head? = some 'И' := rfl
  rw [h1, h2] at hc
  exact absurd hc (by decide)

/-- Every loop iteration performs exactly one outbound fetch, with the
`from_date` timestamp derived from the incoming cursor. -/
theorem cycle_fetches (token last : String) (cursor : PyVal) (inp : CycleInput) :
    fetchesOf (cycle token last cursor inp).events = [fetchTs cursor inp] := by
  rcases (cycle_cases token last cursor inp).2 with ⟨m, _, he, _, _⟩ | ⟨_, _, he | ⟨m, he⟩⟩ <;>
    rw [he] <;> rfl

/-- Every loop iteration's event list starts with its outbound fetch. -/
theorem cycle_head_fetch (token last : String) (cursor : PyVal) (inp : CycleInput) :
    (cycle token last cursor inp).events.head? = some (.fetch (fetchTs cursor inp)) := by
  rcases (cycle_cases token last cursor inp).2 with ⟨m, _, he, _, _⟩ | ⟨_, _, he | ⟨m, he⟩⟩ <;>
    rw [he] <;> rfl

/-- **C3 (counterexample)** The claim says `parse_status` fails with a
`ValueError` for any status outside the three known values.  Not for an
unhashable one: for `\x7b"homework_name": "hw1", "status": []\x7d` the
line-106 membership test `status not in HOMEWORK_VERDICTS` hashes the
list and itself raises `TypeError: unhashable type`, so the line-107
`ValueError` is never reached. -/
theorem parse_status_unhashable_cx :
    parse_status (.dict [("homework_name", .str "hw1"), ("status", .list [])]) =
      .error (.typeError "unhashable type: 'list'") :=
  rfl

/-- **C3 (amended)** For every homework record (dict) that has the
`homework_name` key and whose `status` value is hashable (a string,
number or null) and outside the three known values
\x7bapproved, reviewing, rejected\x7d, `parse_status` fails with a
`ValueError` (an unhashable status instead fails with a `TypeError` from
the membership test). -/
theorem parse_status_unknown_status (kvs : List (String × PyVal))
    (hname : (kvs.lookup "homework_name").isSome = true)
    (hstat : verdictsLookup (dictGet kvs "status") = .ok Option.none) :
    parse_status (.dict kvs) =
      .error (.valueError ("Неизвестный статус - " ++ pyStr (dictGet kvs "status"))) := by
  simp [parse_status, pyContains, hname, hstat]

/-- Witness for C3: the record `\x7b"homework_name": "hw1", "status": "unknown"\x7d`. -/
theorem parse_status_unknown_status_witness :
    parse_status (.dict [("homework_name", .str "hw1"), ("status", .str "unknown")]) =
      .error (.valueError "Неизвестный статус - unknown") :=
  parse_status_unknown_status
    [("homework_name", PyVal.str "hw1"), ("status", PyVal.str "unknown")] rfl rfl

/-- **C4** For every dict response with both the `homeworks` and
`current_date` keys where `homeworks` is a list, `check_response` returns
exactly the `homeworks` value unchanged (including the empty list). -/
theorem check_response_returns_homeworks (kvs : List (String × PyVal)) (hs : List PyVal)
    (hH : kvs.lookup "homeworks" = some (.list hs))
    (hD : (kvs.lookup "current_date").isSome = true) :
    check_response (.dict kvs) = .ok hs := by
  have hD' : (kvs.lookup "current_date").isNone = false := by
    cases hx : kvs.lookup "current_date" with
    | none => rw [hx] at hD; simp at hD
    | some _ => rfl
  simp [check_response, dictGet, hH, hD']

/-- Witness for C4: a response with an empty `homeworks` list. -/
theorem check_response_returns_homeworks_witness :
    check_response (.dict [("homeworks", .list []), ("current_date", .int 2000)])
      = .ok [] :=
  check_response_returns_homeworks _ [] rfl rfl

/-- **C5** For every dict response missing the `homeworks` key or the
`current_date` key (or both), `check_response` fails with the
`EmptyResponseFromAPI` error. -/
theorem check_response_missing_key (kvs : List (String × PyVal))
    (h : kvs.lookup "homeworks" = Option.none ∨ kvs.lookup "current_date" = Option.none) :
    check_response (.dict kvs) =
      .error (.emptyResponseFromAPI "Нет ключа homeworks в ответе") := by
  rcases h with h | h <;> simp [check_response, h]

/-- Witness for C5: a response with only `current_date`. -/
theorem check_response_missing_key_witness :
    check_response (.dict [("current_date", .int 1000)]) =
      .error (.emptyResponseFromAPI "Нет ключа homeworks в ответе") :=
  check_response_missing_key _ (Or.inl rfl)

/-- **C6** For every homework record with the `homework_name` key and a
`status` in the verdict table, `parse_status` returns exactly the
fixed-template string built from the record's name and the verdict text
of that status. -/
theorem parse_status_known_status (kvs : List (String × PyVal)) (nv : PyVal)
    (st verdict : String)
    (hname : kvs.lookup "homework_name" = some nv)
    (hst : dictGet kvs "status" = .str st)
    (hv : HOMEWORK_VERDICTS.lookup st = some verdict) :
    parse_status (.dict kvs) =
      .ok ("Изменился статус проверки работы \"" ++ pyStr nv ++ "\". " ++ verdict) := by
  have hname' : (kvs.lookup "homework_name").isSome = true := by rw [hname]; rfl
  have hnv : dictGet kvs "homework_name" = nv := by unfold dictGet; rw [hname]
  simp [parse_status, pyContains, hname', hnv, hst, verdictsLookup, hv]

/-- Witness for C6: `\x7b"homework_name": "hw1", "status": "approved"\x7d`
yields the exact notification of end-to-end scenario 1, and the message
contains neither of the two other verdict texts. -/
theorem parse_status_known_status_witness :
    parse_status (.dict [("homework_name", .str "hw1"), ("status", .str "approved")]) =
      .ok "Изменился статус проверки работы \"hw1\". Работа проверена: ревьюеру всё понравилось. Ура!"
    ∧ charsHaveSub "Работа взята на проверку ревьюером.".data
        "Изменился статус проверки работы \"hw1\". Работа проверена: ревьюеру всё понравилось. Ура!".data
        = false
    ∧ charsHaveSub "Работа проверена: у ревьюера есть замечания.".data
        "Изменился статус проверки работы \"hw1\". Работа проверена: ревьюеру всё понравилось. Ура!".data
        = false := by
  refine ⟨?_, by decide, by decide⟩
  exact parse_status_known_status _ (PyVal.str "hw1") "approved" _ rfl rfl rfl

/-- **C7** `get_api_answer` fails with a `WrongResponseCode` error on a
network error, a non-200 HTTP status, or a JSON-decode failure; on
HTTP 200 with a decoded JSON body it returns the body as-is; and a loop
iteration performs exactly one fetch, so there is no retry inside the
call. -/
theorem get_api_answer_contract (token : String) (ts : PyVal) (now : Int) :
    (∀ cause, ∃ m c, get_api_answer token ts now (.netError cause)
        = .error (.wrongResponseCode m c))
    ∧ (∀ status reason text body, status ≠ 200 →
        ∃ m c, get_api_answer token ts now (.response status reason text body)
          = .error (.wrongResponseCode m c))
    ∧ (∀ reason text cause, ∃ m c,
        get_api_answer token ts now (.response 200 reason text (.error cause))
          = .error (.wrongResponseCode m c))
    ∧ (∀ reason text v,
        get_api_answer token ts now (.response 200 reason text (.ok v)) = .ok v)
    ∧ (∀ (last : String) (cursor : PyVal) (inp : CycleInput),
        fetchesOf (cycle token last cursor inp).events = [fetchTs cursor inp]) := by
  refine ⟨fun cause => ⟨_, _, rfl⟩, fun status reason text body h => ?_,
    fun reason text cause => ⟨_, _, rfl⟩, fun reason text v => rfl,
    fun last cursor inp => cycle_fetches token last cursor inp⟩
  refine ⟨requestFailMsg token (if pyTruthy ts then ts else PyVal.int now),
    "WrongResponseCode('" ++ non200Msg status reason text ++ "')", ?_⟩
  unfold get_api_answer
  dsimp only
  rw [if_pos h]

/-- Witness for C7: HTTP 503 (end-to-end scenario 3's fetch outcome). -/
theorem get_api_answer_contract_witness :
    ∃ m c, get_api_answer "T" (.int 5) 9
        (.response 503 "Service Unavailable" "t" (.ok (.dict [])))
      = .error (.wrongResponseCode m c) :=
  (get_api_answer_contract "T" (.int 5) 9).2.1 503 "Service Unavailable" "t" _ (by decide)

/-- **C8** Every iteration of the poll loop ends with the `finally` sleep
of the fixed retry period, whatever the oracle outcomes — including the
paths where the cycle body or the error-report send raised. -/
theorem cycle_ends_with_sleep (token last : String) (cursor : PyVal) (inp : CycleInput) :
    (cycle token last cursor inp).events.getLast? = some (.sleep RETRY_PERIOD) := by
  rcases (cycle_cases token last cursor inp).2 with ⟨m, _, he, _, _⟩ | ⟨_, _, he | ⟨m, he⟩⟩ <;>
    rw [he] <;> rfl

/-- **C9** The cursor is updated from the response's `current_date` before
validation: for every response containing `current_date` whose validation
fails (`homeworks` missing or not a list), the cycle errors with the
cursor already advanced to that `current_date` value, and the next fetch
uses the advanced cursor. -/
theorem cursor_advances_before_validation (token last : String) (cursor : PyVal)
    (inp : CycleInput) (kvs : List (String × PyVal)) (t : PyVal) (reason text : String)
    (hhttp : inp.http = .response 200 reason text (.ok (.dict kvs)))
    (hdate : kvs.lookup "current_date" = some t)
    (hbad : ∀ l : List PyVal, kvs.lookup "homeworks" ≠ some (.list l)) :
    (∃ e, computeMessage token cursor inp = (t, .error e))
    ∧ (cycle token last cursor inp).cursor = t
    ∧ (pyTruthy t = true → ∀ (last2 : String) (inp2 : CycleInput),
        (cycle token last2 t inp2).events.head? = some (.fetch t)) := by
  have hga : get_api_answer token cursor inp.now1 inp.http = .ok (.dict kvs) := by
    rw [hhttp]; rfl
  have hc2 : dictGetD kvs "current_date" (PyVal.int inp.now2) = t := by
    unfold dictGetD; rw [hdate]
  have hcr : ∃ e0, check_response (.dict kvs) = .error e0 := by
    rcases hh : kvs.lookup "homeworks" with _ | v
    · exact ⟨.emptyResponseFromAPI "Нет ключа homeworks в ответе",
        by simp [check_response, hh]⟩
    · rcases v with s | i | xs | kv | _
      case list => exact absurd hh (hbad xs)
      all_goals exact ⟨.typeError "homeworks не является list",
        by simp [check_response, hh, hdate, dictGet]⟩
  obtain ⟨e0, hcr⟩ := hcr
  have hcm : computeMessage token cursor inp = (t, .error e0) := by
    unfold computeMessage
    rw [hga]
    dsimp only
    rw [hcr]
    dsimp only
    rw [hc2]
  refine ⟨⟨e0, hcm⟩, ?_, ?_⟩
  · rw [(cycle_cases token last cursor inp).1, hcm]
  · intro ht last2 inp2
    rw [cycle_head_fetch]
    simp [fetchTs, ht]

/-- Witness for C9: a 200-response `\x7b"current_date": 1000\x7d` without
`homeworks` leaves the cycle with the cursor advanced to 1000. -/
theorem cursor_advances_before_validation_witness :
    (cycle "T" "" (.int 1) ⟨1, 7, .response 200 "OK" "body"
        (.ok (.dict [("current_date", .int 1000)])), Option.none, Option.none⟩).cursor
      = .int 1000 :=
  (cursor_advances_before_validation "T" "" (.int 1)
    ⟨1, 7, .response 200 "OK" "body" (.ok (.dict [("current_date", .int 1000)])),
      Option.none, Option.none⟩
    [("current_date", PyVal.int 1000)] (.int 1000) "OK" "body"
    rfl rfl (fun _ h => Option.noConfusion h)).2.1

/-- **C10** `last_message` is updated only by a successful send (any change
of it is witnessed by a `sent` event of the new value); if the normal-path
send raises, the cycle never records the failed text, which stays eligible
for the next cycle; and when the error-report send raises, `last_message`
keeps its previous value. -/
theorem last_message_update_discipline (token last : String) (cursor : PyVal)
    (inp : CycleInput) :
    ((cycle token last cursor inp).lastMessage = last
      ∨ Event.sent (cycle token last cursor inp).lastMessage
          ∈ (cycle token last cursor inp).events)
    ∧ (∀ c2 msg e1, computeMessage token cursor inp = (c2, .ok msg) → msg ≠ last →
        inp.tgErr1 = some e1 → (cycle token last cursor inp).lastMessage ≠ msg)
    ∧ (∀ e, (cycle token last cursor inp).raised = some e →
        (cycle token last cursor inp).lastMessage = last) := by
  refine ⟨?_, ?_, ?_⟩
  · rcases (cycle_cases token last cursor inp).2 with ⟨m, _, he, hlm, _⟩ | ⟨hlm, _, _⟩
    · rw [hlm, he]; exact Or.inr (by simp)
    · exact Or.inl hlm
  · intro c2 msg e1 hcm hne htg
    have hshape := computeMessage_ok_shape token cursor inp c2 msg hcm
    have hlm : (cycle token last cursor inp).lastMessage = last
        ∨ ∃ x, (cycle token last cursor inp).lastMessage
            = "Сбой в работе программы: " ++ x := by
      unfold cycle
      rw [hcm]
      dsimp only
      rw [if_pos hne, htg]
      dsimp [send_message]
      unfold exceptBranch errorReport
      dsimp only
      split
      · rcases inp.tgErr2 with _ | e2 <;> dsimp [send_message]
        · exact Or.inr ⟨_, rfl⟩
        · exact Or.inl rfl
      · exact Or.inl rfl
    rcases hlm with hlm | ⟨x, hlm⟩
    · rw [hlm]; exact Ne.symm hne
    · rw [hlm]
      rcases hshape with h | ⟨y, hy⟩
      · rw [h]; exact errorReport_ne_unchanged x
      · rw [hy]; exact errorReport_ne_parsed x y
  · intro e hr
    obtain ⟨e2, -, -, hlast⟩ := cycle_raised_aux token last cursor inp e hr
    exact hlast

/-- Witness for C10: the normal-path send of "Статус не изменился" fails,
and the cycle's final `last_message` is not that failed text. -/
theorem last_message_update_discipline_witness :
    (cycle "T" "" (.int 1) ⟨1, 7, .response 200 "OK" "body"
        (.ok (.dict [("homeworks", .list []), ("current_date", .int 5)])),
        some "boom", Option.none⟩).lastMessage ≠ "Статус не изменился" :=
  (last_message_update_discipline "T" "" (.int 1) _).2.1 (.int 5) "Статус не изменился"
    "boom" rfl (by decide) rfl

/-- Trace-level de-duplication invariant: along a run, consecutive
successful sends always differ, and the first send differs from the
incoming `last_message`. -/
theorem runCycles_dedup_aux (token : String) (inps : List CycleInput) :
    ∀ (last : String) (cursor : PyVal),
      List.Chain' (fun a b => a ≠ b) (sentsOf (runCycles token last cursor inps))
      ∧ (∀ m, (sentsOf (runCycles token last cursor inps)).head? = some m → m ≠ last) := by
  induction inps with
  | nil =>
    intro last cursor
    exact ⟨by simp [runCycles, sentsOf], fun m hm => by simp [runCycles, sentsOf] at hm⟩
  | cons inp rest ih =>
    intro last cursor
    rw [runCycles]
    rcases hr : (cycle token last cursor inp).raised with _ | e <;> dsimp only
    · rw [sentsOf_append]
      rcases (cycle_cases token last cursor inp).2 with ⟨m, hne, he, hlm, _⟩ | ⟨hlm, hs, _⟩
      · have hsents : sentsOf (cycle token last cursor inp).events = [m] := by
          rw [he]; rfl
        rw [hsents, hlm]
        obtain ⟨hch, hhd⟩ := ih m (cycle token last cursor inp).cursor
        refine ⟨List.chain'_cons'.mpr
          ⟨fun y hy => Ne.symm (hhd y (Option.mem_def.mp hy)), hch⟩, ?_⟩
        intro m' hm'
        have hm2 : m = m' := Option.some.inj hm'
        rw [← hm2]
        exact hne
      · rw [hs, hlm]
        simpa using ih last (cycle token last cursor inp).cursor
    · rcases (cycle_cases token last cursor inp).2 with ⟨m, hne, he, hlm, hnone⟩ | ⟨hlm, hs, _⟩
      · rw [hr] at hnone; exact absurd hnone (by simp)
      · rw [hs]
        exact ⟨List.chain'_nil, fun m hm => by simp at hm⟩

/-- **C2** In every poll-loop cycle the produced message (success or error
report) is passed to the Notifier only if it differs from `last_message`
(no send event carries the incoming `last_message`), and along any run the
same notification text is never sent twice in a row. -/
theorem poll_loop_dedup (token last : String) (cursor : PyVal)
    (inps : List CycleInput) :
    (∀ inp : CycleInput, ∀ m ∈ sentsOf (cycle token last cursor inp).events, m ≠ last)
    ∧ List.Chain' (fun a b => a ≠ b) (sentsOf (runCycles token last cursor inps)) := by
  constructor
  · intro inp m hm
    rcases (cycle_cases token last cursor inp).2 with ⟨m', hne, he, _, _⟩ | ⟨_, hs, _⟩
    · rw [he] at hm
      simp [sentsOf] at hm
      rw [hm]
      exact hne
    · rw [hs] at hm
      simp at hm
  · exact (runCycles_dedup_aux token inps last cursor).1

/-- Witness for C2: a successful cycle sends "Статус не изменился", which
differs from the incoming `last_message` "x". -/
theorem poll_loop_dedup_witness :
    "Статус не изменился" ∈ sentsOf (cycle "T" "x" (.int 1)
        ⟨1, 7, .response 200 "OK" "body"
          (.ok (.dict [("homeworks", .list []), ("current_date", .int 5)])),
          Option.none, Option.none⟩).events
    ∧ "Статус не изменился" ≠ "x" :=
  ⟨by decide,
   (poll_loop_dedup "T" "x" (.int 1) []).1
     ⟨1, 7, .response 200 "OK" "body"
       (.ok (.dict [("homeworks", .list []), ("current_date", .int 5)])),
       Option.none, Option.none⟩
     "Статус не изменился" (by decide)⟩

/-- **C1 (counterexample)** The claim says a `TelegramError` raised by
`send_message` during normal operation escapes the cycle's own exception
handler.  It does not: the normal-path `send_message` (line 146) sits
inside the `try`, so with the message computed, the normal-path send
failing and the error-report send succeeding, the iteration raises
nothing — the `TelegramError` is caught by `except Exception` (line 151)
and converted into an error-report notification that is sent. -/
theorem notifier_failure_caught_cx :
    (cycle "T" "" (.int 1) ⟨1, 7, .response 200 "OK" "body"
        (.ok (.dict [("homeworks", .list []), ("current_date", .int 5)])),
        some "boom", Option.none⟩).raised = Option.none
    ∧ (cycle "T" "" (.int 1) ⟨1, 7, .response 200 "OK" "body"
        (.ok (.dict [("homeworks", .list []), ("current_date", .int 5)])),
        some "boom", Option.none⟩).events
      = [.fetch (.int 1),
         .sent "Сбой в работе программы: Ошибка отправки сообщения в Telegram: boom",
         .sleep RETRY_PERIOD] :=
  ⟨rfl, rfl⟩

/-- **C1 (amended)** A notifier failure on the normal path of the
steady-state cycle is caught by the cycle's `except Exception` handler and
converted into an error-report send attempt; the only exception that
propagates out of the cycle body is a `TelegramError` raised while sending
the error report itself. -/
theorem notifier_failure_amended (token last : String) (cursor : PyVal)
    (inp : CycleInput) :
    (∀ e, (cycle token last cursor inp).raised = some e →
      ∃ e2, inp.tgErr2 = some e2
        ∧ e = .telegramError ("Ошибка отправки сообщения в Telegram: " ++ e2))
    ∧ (∀ c2 msg e1, computeMessage token cursor inp = (c2, .ok msg) → msg ≠ last →
        inp.tgErr1 = some e1 → inp.tgErr2 = Option.none →
        (cycle token last cursor inp).raised = Option.none) := by
  constructor
  · intro e hr
    obtain ⟨e2, h1, h2, -⟩ := cycle_raised_aux token last cursor inp e hr
    exact ⟨e2, h1, h2⟩
  · intro c2 msg e1 hcm hne htg1 htg2
    unfold cycle
    rw [hcm]
    dsimp only
    rw [if_pos hne, htg1]
    dsimp [send_message]
    unfold exceptBranch
    rw [htg2]
    dsimp [send_message]
    split
    · rfl
    · rfl

/-- Witness for C1 (amended): with the error-report send failing the escaped
exception is exactly its `TelegramError`, and with the error-report send
succeeding nothing escapes. -/
theorem notifier_failure_amended_witness :
    (∃ e2, (CycleInput.mk 1 7 (.response 200 "OK" "body"
          (.ok (.dict [("homeworks", .list []), ("current_date", .int 5)])))
          (some "boom") (some "boom2")).tgErr2 = some e2
        ∧ Exn.telegramError "Ошибка отправки сообщения в Telegram: boom2"
            = .telegramError ("Ошибка отправки сообщения в Telegram: " ++ e2))
    ∧ (cycle "T" "" (.int 1) ⟨1, 7, .response 200 "OK" "body"
        (.ok (.dict [("homeworks", .list []), ("current_date", .int 5)])),
        some "boom", Option.none⟩).raised = Option.none :=
  ⟨(notifier_failure_amended "T" "" (.int 1)
      ⟨1, 7, .response 200 "OK" "body"
        (.ok (.dict [("homeworks", .list []), ("current_date", .int 5)])),
        some "boom", some "boom2"⟩).1
      (.telegramError "Ошибка отправки сообщения в Telegram: boom2") rfl,
   (notifier_failure_amended "T" "" (.int 1)
      ⟨1, 7, .response 200 "OK" "body"
        (.ok (.dict [("homeworks", .list []), ("current_date", .int 5)])),
        some "boom", Option.none⟩).2
      (.int 5) "Статус не изменился" "boom" rfl (by decide) rfl rfl⟩

end HomeworkBot
